import Mathlib

/-
Verification development for the mcp-ms-planner repository.

This file gives a shallow embedding, in Lean, of the Server-Sent-Events
broadcaster and the planner HTTP handlers found in:
  src/server/sseServer.ts        (SseServer: handleRequest, handleSseConnection,
                                  sendEvent, broadcast)
  src/services/plannerHandlers.ts (handleGetTasks, handleGetTaskDetails,
                                   handleCreateTask)
  src/services/plannerService.ts  (fetchPlannerTasks, getTaskDetails)

External collaborators (the Node HTTP transport, the Microsoft Graph client,
the wall clock) are modelled as explicit parameters: a connection carries a
flag saying whether a write to it throws, the Graph client is an explicit
Except-valued argument, and Date.now() is a natural-number argument.
JavaScript strings are modelled as Lean strings (lists of characters) and
JSON.stringify is translated literally, including its escaping rules.
-/

set_option maxHeartbeats 1000000
set_option autoImplicit false

/-! Decimal rendering of natural numbers, mirroring the JavaScript
Number.prototype.toString() (base 10) used for client ids, and the decimal
part of JSON.stringify on numbers. -/

/-- Character for a single decimal digit. -/
def digitChar (d : Nat) : Char :=
  if d = 0 then '0' else if d = 1 then '1' else if d = 2 then '2' else if d = 3 then '3'
  else if d = 4 then '4' else if d = 5 then '5' else if d = 6 then '6'
  else if d = 7 then '7' else if d = 8 then '8' else '9'

/-- Numeric value of a decimal digit character (inverse of digitChar). -/
def digitVal (c : Char) : Nat :=
  if c = '0' then 0 else if c = '1' then 1 else if c = '2' then 2 else if c = '3' then 3
  else if c = '4' then 4 else if c = '5' then 5 else if c = '6' then 6
  else if c = '7' then 7 else if c = '8' then 8 else 9

/-- Little-endian decimal digits of a number; the first argument is fuel,
always instantiated so that it dominates the number. -/
def toDigitsRevFuel : Nat → Nat → List Nat
  | 0, _ => []
  | _, 0 => []
  | fuel + 1, n => n % 10 :: toDigitsRevFuel fuel (n / 10)

/-- Little-endian decimal digits of a positive number. -/
def toDigitsRev (n : Nat) : List Nat := toDigitsRevFuel n n

/-- Value of a little-endian digit list. -/
def ofDigitsRev : List Nat → Nat
  | [] => 0
  | d :: ds => d + 10 * ofDigitsRev ds

/-- Decimal rendering of a natural number, as produced by toString() in
JavaScript. -/
def natToString (n : Nat) : String :=
  if n = 0 then "0" else String.mk (((toDigitsRev n).reverse).map digitChar)

/-- Reads a decimal string back to the number it renders. -/
def decodeNatString (s : String) : Nat :=
  ofDigitsRev ((s.data.map digitVal).reverse)

theorem ofDigitsRev_toDigitsRevFuel :
    ∀ (fuel n : Nat), n ≤ fuel → ofDigitsRev (toDigitsRevFuel fuel n) = n := by
  intro fuel
  induction fuel with
  | zero =>
    intro n h
    interval_cases n
    simp [toDigitsRevFuel, ofDigitsRev]
  | succ f ih =>
    intro n h
    match n with
    | 0 => simp [toDigitsRevFuel, ofDigitsRev]
    | m + 1 =>
      have hpos : 0 < m + 1 := Nat.succ_pos m
      have hlt : (m + 1) / 10 < m + 1 := Nat.div_lt_self hpos (by decide)
      have hle : (m + 1) / 10 ≤ f := by omega
      simp only [toDigitsRevFuel, ofDigitsRev, ih _ hle]
      omega

theorem toDigitsRevFuel_digit_lt :
    ∀ (fuel n d : Nat), d ∈ toDigitsRevFuel fuel n → d < 10 := by
  intro fuel
  induction fuel with
  | zero => intro n d h; simp [toDigitsRevFuel] at h
  | succ f ih =>
    intro n d h
    match n with
    | 0 => simp [toDigitsRevFuel] at h
    | m + 1 =>
      simp only [toDigitsRevFuel, List.mem_cons] at h
      rcases h with h | h
      · subst h; exact Nat.mod_lt _ (by decide)
      · exact ih _ _ h

theorem digitVal_digitChar (d : Nat) (h : d < 10) : digitVal (digitChar d) = d := by
  interval_cases d <;> decide

/-- Round trip: the decimal rendering of a number decodes back to it. -/
theorem decode_natToString (n : Nat) : decodeNatString (natToString n) = n := by
  by_cases h0 : n = 0
  · subst h0; decide
  · unfold natToString decodeNatString
    rw [if_neg h0]
    have hdata : (String.mk (((toDigitsRev n).reverse).map digitChar)).data
        = ((toDigitsRev n).reverse).map digitChar := rfl
    rw [hdata, List.map_map]
    have hcongr : ((toDigitsRev n).reverse).map (digitVal ∘ digitChar)
        = ((toDigitsRev n).reverse).map id := by
      apply List.map_congr_left
      intro d hd
      have : d < 10 := toDigitsRevFuel_digit_lt n n d (List.mem_reverse.mp hd)
      simp [Function.comp, digitVal_digitChar d this]
    rw [hcongr, List.map_id, List.reverse_reverse]
    exact ofDigitsRev_toDigitsRevFuel n n (Nat.le_refl n)

/-- The decimal rendering is injective. -/
theorem natToString_inj {a b : Nat} (h : natToString a = natToString b) : a = b := by
  have ha := decode_natToString a
  rw [h, decode_natToString b] at ha
  omega

/-! JSON values and JSON.stringify, translated from the JavaScript semantics
used by sendEvent and the HTTP handlers. -/

/-- JSON value produced by the JavaScript object literals in the source. -/
inductive Json where
  | null : Json
  | bool : Bool → Json
  | num : Int → Json
  | str : String → Json
  | arr : List Json → Json
  | obj : List (String × Json) → Json

/-- Lowercase hexadecimal digit, for control-character escapes. -/
def hexDigit (d : Nat) : Char :=
  if d < 10 then digitChar d
  else if d = 10 then 'a' else if d = 11 then 'b' else if d = 12 then 'c'
  else if d = 13 then 'd' else if d = 14 then 'e' else 'f'

/-- Escape of one character inside a JSON string literal, as performed by
JSON.stringify. -/
def escapeChar (c : Char) : List Char :=
  if c = '"' then ['\\', '"']
  else if c = '\\' then ['\\', '\\']
  else if c = '\n' then ['\\', 'n']
  else if c = '\r' then ['\\', 'r']
  else if c = '\t' then ['\\', 't']
  else if c.toNat = 8 then ['\\', 'b']
  else if c.toNat = 12 then ['\\', 'f']
  else if c.toNat < 32 then ['\\', 'u', '0', '0', hexDigit (c.toNat / 16), hexDigit (c.toNat % 16)]
  else [c]

/-- A JSON string literal: quotes around the escaped characters. -/
def quoteString (s : String) : String :=
  String.mk ('"' :: (s.data.map escapeChar).flatten ++ ['"'])

/-- Decimal rendering of an integer (JavaScript number formatting restricted
to integral values, which is all the source produces). -/
def intToString (i : Int) : String :=
  if i < 0 then "-" ++ natToString i.natAbs else natToString i.natAbs

/-- Comma-separated join, as in Array.prototype.join used by stringify. -/
def commaJoin : List String → String
  | [] => ""
  | [s] => s
  | s :: t :: r => s ++ "," ++ commaJoin (t :: r)

mutual
/-- JSON.stringify, translated from the ECMAScript serialization of the
value shapes occurring in the source. -/
def stringify : Json → String
  | Json.null => "null"
  | Json.bool b => if b then "true" else "false"
  | Json.num i => intToString i
  | Json.str s => quoteString s
  | Json.arr xs => "[" ++ commaJoin (stringifyItems xs) ++ "]"
  | Json.obj fs => "\x7b" ++ commaJoin (stringifyFields fs) ++ "\x7d"

/-- Renderings of the elements of a JSON array. -/
def stringifyItems : List Json → List String
  | [] => []
  | x :: xs => stringify x :: stringifyItems xs

/-- Renderings key:value of the fields of a JSON object. -/
def stringifyFields : List (String × Json) → List String
  | [] => []
  | (k, v) :: fs => (quoteString k ++ ":" ++ stringify v) :: stringifyFields fs
end

/-! Single-line property of stringify: its output never contains a newline
character, so a data: line of an SSE frame is a single line. -/

/-- A string with no newline character in it. -/
def nlFree (s : String) : Prop := '\n' ∉ s.data

instance (s : String) : Decidable (nlFree s) := by
  unfold nlFree
  infer_instance

theorem nlFree_append {a b : String} (ha : nlFree a) (hb : nlFree b) : nlFree (a ++ b) := by
  unfold nlFree at *
  rw [String.data_append]
  simp only [List.mem_append]
  rintro (h | h)
  · exact ha h
  · exact hb h

theorem nlFree_commaJoin : ∀ l : List String, (∀ s ∈ l, nlFree s) → nlFree (commaJoin l)
  | [], _ => by decide
  | [s], h => by simpa [commaJoin] using h s (by simp)
  | s :: t :: r, h => by
    have h1 : nlFree s := h s (by simp)
    have h2 : nlFree (commaJoin (t :: r)) :=
      nlFree_commaJoin (t :: r) (fun x hx => h x (List.mem_cons_of_mem s hx))
    simpa [commaJoin] using nlFree_append (nlFree_append h1 (by decide)) h2

theorem digitChar_ne_newline (d : Nat) : digitChar d ≠ '\n' := by
  unfold digitChar
  repeat' split
  all_goals decide

theorem hexDigit_ne_newline (d : Nat) : hexDigit d ≠ '\n' := by
  unfold hexDigit
  repeat' split
  · exact digitChar_ne_newline d
  all_goals decide

theorem escapeChar_no_newline (c : Char) : '\n' ∉ escapeChar c := by
  unfold escapeChar
  repeat' split
  all_goals simp_all [List.mem_cons]
  · constructor
    · exact fun h => hexDigit_ne_newline _ h.symm
    · exact fun h => hexDigit_ne_newline _ h.symm
  · exact fun h => ‹¬c = '\n'› h.symm

theorem nlFree_quoteString (s : String) : nlFree (quoteString s) := by
  unfold nlFree quoteString
  intro hmem
  have hmem2 : '\n' ∈ ('"' :: ((s.data.map escapeChar).flatten ++ ['"']) : List Char) := hmem
  rcases List.mem_cons.mp hmem2 with h | h
  · exact absurd h (by decide)
  · rcases List.mem_append.mp h with h | h
    · rcases List.mem_flatten.mp h with ⟨l, hl, hc⟩
      rcases List.mem_map.mp hl with ⟨ch, _, rfl⟩
      exact escapeChar_no_newline ch hc
    · simp at h

theorem nlFree_natToString (n : Nat) : nlFree (natToString n) := by
  unfold natToString nlFree
  split
  · decide
  · intro hmem
    have : ∀ c ∈ ((toDigitsRev n).reverse).map digitChar, c ≠ '\n' := by
      intro c hc
      rcases List.mem_map.mp hc with ⟨d, _, rfl⟩
      exact digitChar_ne_newline d
    exact this '\n' hmem rfl

theorem nlFree_intToString (i : Int) : nlFree (intToString i) := by
  unfold intToString
  split
  · exact nlFree_append (by decide) (nlFree_natToString _)
  · exact nlFree_natToString _

mutual
theorem stringify_nlFree : ∀ j : Json, nlFree (stringify j)
  | Json.null => by decide
  | Json.bool b => by cases b <;> simp [stringify] <;> decide
  | Json.num i => by simpa [stringify] using nlFree_intToString i
  | Json.str s => by simpa [stringify] using nlFree_quoteString s
  | Json.arr xs => by
    have h := stringifyItems_nlFree xs
    simp only [stringify]
    exact nlFree_append (nlFree_append (by decide) (nlFree_commaJoin _ h)) (by decide)
  | Json.obj fs => by
    have h := stringifyFields_nlFree fs
    simp only [stringify]
    exact nlFree_append (nlFree_append (by decide) (nlFree_commaJoin _ h)) (by decide)

theorem stringifyItems_nlFree : ∀ xs : List Json, ∀ s ∈ stringifyItems xs, nlFree s
  | [], _, h => by simp [stringifyItems] at h
  | x :: xs, s, h => by
    simp only [stringifyItems, List.mem_cons] at h
    rcases h with h | h
    · subst h; exact stringify_nlFree x
    · exact stringifyItems_nlFree xs s h

theorem stringifyFields_nlFree :
    ∀ fs : List (String × Json), ∀ s ∈ stringifyFields fs, nlFree s
  | [], _, h => by simp [stringifyFields] at h
  | (k, v) :: fs, s, h => by
    simp only [stringifyFields, List.mem_cons] at h
    rcases h with h | h
    · subst h
      exact nlFree_append (nlFree_append (nlFree_quoteString k) (by decide))
        (stringify_nlFree v)
    · exact stringifyFields_nlFree fs s h
end

/-! The SSE broadcaster (src/server/sseServer.ts).

A subscriber connection is modelled by a tag (identity of the underlying
ServerResponse object) and a flag saying whether res.write on it throws.
The clients map of SseServer is an insertion-ordered map from string ids to
connections, modelled as an association list with JavaScript Map semantics:
set replaces the value of an existing key in place, delete removes a key. -/

/-- An open output connection (a Node ServerResponse held by the server). -/
structure Conn where
  tag : Nat
  failing : Bool
deriving DecidableEq

/-- The clients map of SseServer, in insertion order. -/
abbrev Registry := List (String × Conn)

/-- Keys of the clients map, in insertion order. -/
def regKeys (r : Registry) : List String := r.map Prod.fst

/-- JavaScript Map.set: replace in place if the key exists, else append. -/
def mapSet (r : Registry) (k : String) (v : Conn) : Registry :=
  if (regKeys r).contains k then
    r.map (fun p => if p.1 = k then (k, v) else p)
  else r ++ [(k, v)]

/-- JavaScript Map.delete: remove the entry of the key, if present. -/
def mapDelete (r : Registry) (k : String) : Registry :=
  r.filter (fun p => p.1 != k)

/-- Observable outcome of one sendEvent call: the bytes written (none when
the write threw), whether the catch block logged the error, and whether the
call itself threw to its caller. -/
structure SendResult where
  written : Option String
  errorLogged : Bool
  threw : Bool
deriving DecidableEq

/-- The wire frame built by sendEvent:
event: name, newline, data: JSON, blank line. -/
def sseFrame (event : String) (data : Json) : String :=
  "event: " ++ event ++ "\n" ++ "data: " ++ stringify data ++ "\n\n"

/-- SseServer.sendEvent: builds the frame and writes it inside a try/catch
whose catch only logs, so the call never throws to its caller. -/
def sendEvent (conn : Conn) (event : String) (data : Json) : SendResult :=
  if conn.failing then
    { written := none, errorLogged := true, threw := false }
  else
    { written := some (sseFrame event data), errorLogged := false, threw := false }

/-- The SseEvent record built at the top of SseServer.broadcast:
type, data, timestamp. -/
def sseEventJson (eventType : String) (data : Json) (now : String) : Json :=
  Json.obj [("type", Json.str eventType), ("data", data), ("timestamp", Json.str now)]

/-- Observable outcome of one broadcast call: the clients map afterwards, the
per-client sendEvent outcomes in iteration order, the ids deleted by the
catch branch of the loop, and whether broadcast returned normally. -/
structure BroadcastResult where
  registry : Registry
  log : List (String × SendResult)
  removed : List String
  returnedNormally : Bool
deriving DecidableEq

/-- The for-loop of SseServer.broadcast over the entries of the clients map:
each iteration calls sendEvent inside a try/catch whose catch logs and
deletes the client from the map. -/
def broadcastLoop (event : String) (payload : Json) :
    List (String × Conn) → Registry → BroadcastResult
  | [], reg => { registry := reg, log := [], removed := [], returnedNormally := true }
  | (cid, conn) :: rest, reg =>
    let r := sendEvent conn event payload
    if r.threw then
      let res := broadcastLoop event payload rest (mapDelete reg cid)
      { res with log := (cid, r) :: res.log, removed := cid :: res.removed }
    else
      let res := broadcastLoop event payload rest reg
      { res with log := (cid, r) :: res.log }

/-- SseServer.broadcast: wraps the payload in an SseEvent with the current
timestamp and iterates the clients map. -/
def broadcast (reg : Registry) (eventType : String) (data : Json) (now : String) :
    BroadcastResult :=
  broadcastLoop eventType (sseEventJson eventType data now) reg reg

/-- Client id chosen by handleSseConnection: Date.now().toString(). -/
def subscribeId (nowMs : Nat) : String := natToString nowMs

/-- The connected greeting payload sent on subscription. -/
def connectedJson (clientId : String) (nowIso : String) : Json :=
  Json.obj [("clientId", Json.str clientId),
    ("message", Json.str "Connected to planner server"),
    ("timestamp", Json.str nowIso)]

/-- Observable outcome of SseServer.handleSseConnection. -/
structure SubscribeResult where
  registry : Registry
  clientId : String
  connectedWrite : SendResult

/-- SseServer.handleSseConnection: writes the SSE response head, registers
the connection under Date.now().toString(), and sends the connected event. -/
def handleSseConnection (reg : Registry) (conn : Conn) (nowMs : Nat) (nowIso : String) :
    SubscribeResult :=
  let clientId := subscribeId nowMs
  let reg2 := mapSet reg clientId conn
  { registry := reg2, clientId := clientId,
    connectedWrite := sendEvent conn "connected" (connectedJson clientId nowIso) }

/-- The close handler installed by handleSseConnection:
this.clients.delete(clientId). -/
def unsubscribe (reg : Registry) (clientId : String) : Registry :=
  mapDelete reg clientId

/-- The frames actually delivered to the subscriber registered under cid
during one broadcast, in write order. -/
def delivered (cid : String) : List (String × SendResult) → List String
  | [] => []
  | (k, r) :: rest =>
    if k = cid then
      match r.written with
      | some m => m :: delivered cid rest
      | none => delivered cid rest
    else delivered cid rest

/-! The HTTP surface (src/server/sseServer.ts handleRequest and
src/services/plannerHandlers.ts / plannerService.ts).

The Microsoft Graph client, the JWT decoding of the access token and the
request body parse are external collaborators, passed as explicit values. -/

/-- JavaScript String.prototype.startsWith on our character-level strings. -/
def jsStartsWith (s p : String) : Bool := p.data.isPrefixOf s.data

/-- JavaScript String.prototype.slice(n) (drop the first n characters). -/
def jsSlice (s : String) (n : Nat) : String := String.mk (s.data.drop n)

/-- Bearer-token extraction shared by the three planner handlers:
authHeader.startsWith('Bearer ') ? authHeader.slice(7) : ''. An absent
Authorization header is the empty string (req.headers.authorization or ''). -/
def bearerToken (auth : Option String) : String :=
  let h := match auth with | none => "" | some s => s
  if jsStartsWith h "Bearer " then jsSlice h 7 else ""

/-- Body of every 401 response of the planner handlers. -/
def unauthorizedBody : String :=
  stringify (Json.obj [("error", Json.str "Unauthorized - No access token provided")])

/-- A planner task as seen by the filtering logic of fetchPlannerTasks:
its completion percentage (absent for JavaScript undefined) and the keys of
its assignments object (none for an absent assignments field). -/
structure PTask where
  percentComplete : Option Int
  assignmentKeys : Option (List String)
deriving DecidableEq

/-- Key normalization in the assignment filter: keys of the form
user_<id> lose the user_ marker, other keys are taken as ids. -/
def stripUserKey (k : String) : String :=
  if jsStartsWith k "user_" then jsSlice k 5 else k

/-- The assignment filter of fetchPlannerTasks: keep a task only when its
assignments object exists and one of its keys names the current user. -/
def assignedToUser (userId : String) (t : PTask) : Bool :=
  match t.assignmentKeys with
  | none => false
  | some ks => ks.any (fun k => stripUserKey k == userId)

/-- JavaScript comparison x > b for a possibly-undefined number
(undefined compares false). -/
def jsNumGt (x : Option Int) (b : Int) : Bool :=
  match x with
  | some v => b < v
  | none => false

/-- JavaScript comparison x < b for a possibly-undefined number
(undefined compares false). -/
def jsNumLt (x : Option Int) (b : Int) : Bool :=
  match x with
  | some v => v < b
  | none => false

/-- The client-side status filter of fetchPlannerTasks. -/
def statusKeep (status : String) (t : PTask) : Bool :=
  if status = "completed" then t.percentComplete == some 100
  else if status = "notStarted" then t.percentComplete == some 0
  else if status = "inProgress" then
    jsNumGt t.percentComplete 0 && jsNumLt t.percentComplete 100
  else true

/-- Result record of fetchPlannerTasks. -/
structure FetchOk where
  tasks : List PTask
  count : Nat
  hasMore : Bool
deriving DecidableEq

/-- plannerService.fetchPlannerTasks: decode the user id from the token,
ask Graph for the task page (the server-side OData filter is Graph's duty
and its response is the graphResult argument), then filter to the tasks
assigned to the user, then re-filter client-side by status. -/
def fetchPlannerTasks (status : Option String) (userId : Option String)
    (graphResult : Except String (List PTask × Bool)) : Except String FetchOk :=
  match userId with
  | none => Except.error "Could not determine user ID from access token"
  | some uid =>
    match graphResult with
    | Except.error e => Except.error ("Failed to fetch planner tasks: " ++ e)
    | Except.ok (value, hasMore) =>
      let t1 := value.filter (assignedToUser uid)
      let t2 := match status with
        | none => t1
        | some s => t1.filter (statusKeep s)
      Except.ok { tasks := t2, count := t2.length, hasMore := hasMore }

/-- Parsed JSON body of POST /api/planner/tasks, restricted to the three
validated fields; none models an absent (undefined or null) field. -/
structure CreateBody where
  title : Option String
  planId : Option String
  bucketId : Option String
deriving DecidableEq

/-- JavaScript falsiness of a possibly-absent string field
(undefined, null and the empty string are falsy). -/
def jsFalsyStr : Option String → Bool
  | none => true
  | some s => s == ""

/-- Body of the 400 response of handleCreateTask. -/
def missingFieldsBody : String :=
  stringify (Json.obj [("error", Json.str "Missing required fields"),
    ("required", Json.arr [Json.str "title", Json.str "planId", Json.str "bucketId"])])

/-- A response of the HTTP surface. Bodies whose serialization depends only
on modelled data are carried as strings; payloads echoing Graph data are
carried structurally. -/
inductive ApiResponse where
  | resp : Nat → String → ApiResponse
  | respTasks : List PTask → Nat → Bool → ApiResponse
  | respTask : PTask → ApiResponse
  | respCreated : Json → ApiResponse
  | sseStream : String → ApiResponse

/-- HTTP status of a response. -/
def statusOf : ApiResponse → Nat
  | ApiResponse.resp s _ => s
  | ApiResponse.respTasks _ _ _ => 200
  | ApiResponse.respTask _ => 200
  | ApiResponse.respCreated _ => 201
  | ApiResponse.sseStream _ => 200

/-- plannerHandlers.handleGetTasks. -/
def handleGetTasks (auth : Option String) (status : Option String)
    (userId : Option String) (graphResult : Except String (List PTask × Bool)) :
    ApiResponse :=
  if bearerToken auth = "" then ApiResponse.resp 401 unauthorizedBody
  else
    match fetchPlannerTasks status userId graphResult with
    | Except.error e =>
      ApiResponse.resp 500 (stringify (Json.obj [("error", Json.str "Failed to fetch tasks"),
        ("details", Json.str e)]))
    | Except.ok r => ApiResponse.respTasks r.tasks r.count r.hasMore

/-- Characterwise split, as JavaScript String.prototype.split('/') with a
one-character separator. -/
def splitOnChar (c : Char) : List Char → List (List Char)
  | [] => [[]]
  | x :: xs =>
    match splitOnChar c xs with
    | [] => [[]]
    | g :: gs => if x = c then [] :: g :: gs else (x :: g) :: gs

/-- url.pathname.split('/').pop() followed by the falsiness check input:
the last path segment (the empty string when the path ends in a slash). -/
def lastSegment (pathname : String) : String :=
  ((((splitOnChar '/' pathname.data).map String.mk).getLast?).getD "")

/-- plannerService.getTaskDetails: decode the user id, then ask Graph for
the task. Both the user-id failure and a Graph failure are wrapped (a Graph
failure twice, once per nested catch block). -/
def getTaskDetails (userId : Option String) (graphTask : Except String (Option PTask)) :
    Except String (Option PTask) :=
  match userId with
  | none =>
    Except.error ("Failed to fetch task details: Could not determine user ID from access token")
  | some _ =>
    match graphTask with
    | Except.error e =>
      Except.error ("Failed to fetch task details: " ++ ("Failed to fetch task details: " ++ e))
    | Except.ok t => Except.ok t

/-- plannerHandlers.handleGetTaskDetails. The empty-segment check precedes
the authorization check, as in the source. -/
def handleGetTaskDetails (auth : Option String) (pathname : String)
    (userId : Option String) (graphTask : Except String (Option PTask)) : ApiResponse :=
  let taskId := lastSegment pathname
  if taskId = "" then
    ApiResponse.resp 400 (stringify (Json.obj [("error", Json.str "Task ID is required")]))
  else if bearerToken auth = "" then ApiResponse.resp 401 unauthorizedBody
  else
    match getTaskDetails userId graphTask with
    | Except.error e =>
      ApiResponse.resp 500 (stringify (Json.obj [("error", Json.str "Failed to fetch task details"),
        ("details", Json.str e)]))
    | Except.ok none =>
      ApiResponse.resp 404 (stringify (Json.obj [("error", Json.str "Task not found")]))
    | Except.ok (some t) => ApiResponse.respTask t

/-- plannerHandlers.handleCreateTask. The boolean in the result records
whether the Graph task-creation call was reached. -/
def handleCreateTask (auth : Option String) (body : CreateBody)
    (graphCreate : Except String Json) : ApiResponse × Bool :=
  if bearerToken auth = "" then
    (ApiResponse.resp 401 unauthorizedBody, false)
  else if jsFalsyStr body.title || jsFalsyStr body.planId || jsFalsyStr body.bucketId then
    (ApiResponse.resp 400 missingFieldsBody, false)
  else
    match graphCreate with
    | Except.ok t => (ApiResponse.respCreated t, true)
    | Except.error e =>
      (ApiResponse.resp 500 (stringify (Json.obj [("error", Json.str "Failed to create task"),
        ("details", Json.str e)])), true)

/-- Body of every 405 response. -/
def methodNotAllowedBody : String :=
  stringify (Json.obj [("error", Json.str "Method not allowed")])

/-- Inputs of one HTTP request to SseServer.handleRequest, together with the
external collaborators the dispatched handler would consult. -/
structure RequestEnv where
  method : String
  pathname : String
  authorization : Option String
  statusQuery : Option String
  body : CreateBody
  userId : Option String
  graphTasks : Except String (List PTask × Bool)
  graphTask : Except String (Option PTask)
  graphCreate : Except String Json
  nowMs : Nat

/-- SseServer.handleRequest: OPTIONS preflight, the /events stream, the two
/api/planner/tasks methods, the task-details path and the 404 fallback, in
source order. The /events branch opens the stream with status 200. -/
def handleRequest (rq : RequestEnv) : ApiResponse :=
  if rq.method = "OPTIONS" then ApiResponse.resp 200 ""
  else if rq.pathname = "/events" ∧ rq.method = "GET" then
    ApiResponse.sseStream (subscribeId rq.nowMs)
  else if rq.pathname = "/api/planner/tasks" then
    if rq.method = "GET" then
      handleGetTasks rq.authorization rq.statusQuery rq.userId rq.graphTasks
    else if rq.method = "POST" then
      (handleCreateTask rq.authorization rq.body rq.graphCreate).1
    else ApiResponse.resp 405 methodNotAllowedBody
  else if jsStartsWith rq.pathname "/api/planner/tasks/" then
    if rq.method = "GET" then
      handleGetTaskDetails rq.authorization rq.pathname rq.userId rq.graphTask
    else ApiResponse.resp 405 methodNotAllowedBody
  else
    ApiResponse.resp 404 (stringify (Json.obj [("error", Json.str "Endpoint not found")]))

/-! Helper lemmas about the broadcast loop. -/

theorem sendEvent_threw_false (conn : Conn) (e : String) (d : Json) :
    (sendEvent conn e d).threw = false := by
  unfold sendEvent
  split <;> rfl

theorem sendEvent_written_ok (conn : Conn) (e : String) (d : Json)
    (h : conn.failing = false) : (sendEvent conn e d).written = some (sseFrame e d) := by
  simp [sendEvent, h]

theorem broadcastLoop_registry_eq (e : String) (p : Json) :
    ∀ (l : List (String × Conn)) (reg : Registry),
      (broadcastLoop e p l reg).registry = reg ∧
      (broadcastLoop e p l reg).removed = [] ∧
      (broadcastLoop e p l reg).returnedNormally = true := by
  intro l
  induction l with
  | nil => intro reg; exact ⟨rfl, rfl, rfl⟩
  | cons hd t ih =>
    intro reg
    obtain ⟨cid, conn⟩ := hd
    simp only [broadcastLoop, sendEvent_threw_false, Bool.false_eq_true, if_false]
    exact ih reg

theorem broadcastLoop_log_eq (e : String) (p : Json) :
    ∀ (l : List (String × Conn)) (reg : Registry),
      (broadcastLoop e p l reg).log = l.map (fun pr => (pr.1, sendEvent pr.2 e p)) := by
  intro l
  induction l with
  | nil => intro reg; rfl
  | cons hd t ih =>
    intro reg
    obtain ⟨cid, conn⟩ := hd
    simp only [broadcastLoop, sendEvent_threw_false, Bool.false_eq_true, if_false, List.map_cons]
    rw [ih reg]

theorem broadcast_registry_eq (reg : Registry) (et : String) (d : Json) (now : String) :
    (broadcast reg et d now).registry = reg :=
  (broadcastLoop_registry_eq et (sseEventJson et d now) reg reg).1

theorem broadcast_removed_nil (reg : Registry) (et : String) (d : Json) (now : String) :
    (broadcast reg et d now).removed = [] :=
  (broadcastLoop_registry_eq et (sseEventJson et d now) reg reg).2.1

theorem broadcast_returns (reg : Registry) (et : String) (d : Json) (now : String) :
    (broadcast reg et d now).returnedNormally = true :=
  (broadcastLoop_registry_eq et (sseEventJson et d now) reg reg).2.2

theorem broadcast_log_eq (reg : Registry) (et : String) (d : Json) (now : String) :
    (broadcast reg et d now).log
      = reg.map (fun pr => (pr.1, sendEvent pr.2 et (sseEventJson et d now))) :=
  broadcastLoop_log_eq et (sseEventJson et d now) reg reg

theorem delivered_of_not_mem (cid : String) (e : String) (p : Json) :
    ∀ (l : List (String × Conn)), cid ∉ regKeys l →
      delivered cid (l.map (fun pr => (pr.1, sendEvent pr.2 e p))) = [] := by
  intro l
  induction l with
  | nil => intro _; rfl
  | cons hd t ih =>
    intro h
    obtain ⟨k, c⟩ := hd
    simp only [regKeys, List.map_cons, List.mem_cons] at h
    push_neg at h
    simp only [List.map_cons, delivered, if_neg (Ne.symm h.1)]
    exact ih h.2

theorem delivered_of_mem (e : String) (p : Json) :
    ∀ (l : List (String × Conn)) (cid : String) (conn : Conn),
      (regKeys l).Nodup → (cid, conn) ∈ l → conn.failing = false →
      delivered cid (l.map (fun pr => (pr.1, sendEvent pr.2 e p))) = [sseFrame e p] := by
  intro l
  induction l with
  | nil => intro cid conn _ hmem; simp at hmem
  | cons hd t ih =>
    intro cid conn hnd hmem hok
    obtain ⟨k, c⟩ := hd
    simp only [regKeys, List.map_cons, List.nodup_cons] at hnd
    rcases List.mem_cons.mp hmem with hh | ht
    · have hk : cid = k := congrArg Prod.fst hh
      have hc : conn = c := congrArg Prod.snd hh
      subst hk; subst hc
      simp only [List.map_cons, delivered, if_pos rfl, sendEvent_written_ok conn e p hok]
      rw [delivered_of_not_mem cid e p t hnd.1]
      simp
    · have hkne : k ≠ cid := by
        intro hk
        subst hk
        exact hnd.1 (List.mem_map.mpr ⟨(k, conn), ht, rfl⟩)
      simp only [List.map_cons, delivered, if_neg hkne]
      exact ih cid conn hnd.2 ht hok

/-! Helper lemmas about the registry map operations. -/

theorem mapDelete_idem (reg : Registry) (cid : String) :
    mapDelete (mapDelete reg cid) cid = mapDelete reg cid := by
  unfold mapDelete
  induction reg with
  | nil => rfl
  | cons hd t ih =>
    by_cases h : hd.1 = cid
    · simp [List.filter_cons, h, ih]
    · simp [List.filter_cons, h, ih]

theorem mapDelete_of_not_mem (reg : Registry) (cid : String) (h : cid ∉ regKeys reg) :
    mapDelete reg cid = reg := by
  unfold mapDelete
  induction reg with
  | nil => rfl
  | cons hd t ih =>
    simp only [regKeys, List.map_cons, List.mem_cons] at h
    push_neg at h
    simp only [List.filter_cons, bne_iff_ne, Ne.symm h.1, ih h.2]
    simp [Ne.symm h.1]

/-! Claims. -/

/-- C10: sendEvent catches internally any error thrown while serializing or
writing the frame, logs it, and returns normally; no exception ever escapes
sendEvent to its caller, so the per-subscriber error branch inside broadcast
can never observe a write failure: the clients map and the removal list of a
broadcast are always untouched. -/
theorem c10_sendEvent_never_throws :
    (∀ (conn : Conn) (e : String) (d : Json),
      (sendEvent conn e d).threw = false ∧
      (conn.failing = true →
        (sendEvent conn e d).errorLogged = true ∧ (sendEvent conn e d).written = none)) ∧
    (∀ (reg : Registry) (et : String) (d : Json) (now : String),
      (broadcast reg et d now).removed = [] ∧ (broadcast reg et d now).registry = reg) := by
  constructor
  · intro conn e d
    refine ⟨sendEvent_threw_false conn e d, ?_⟩
    intro hf
    simp [sendEvent, hf]
  · intro reg et d now
    exact ⟨broadcast_removed_nil reg et d now, broadcast_registry_eq reg et d now⟩

/-- C10 witness: a concrete failing connection is logged, not thrown, and a
concrete broadcast over it removes nobody. -/
theorem c10_sendEvent_never_throws_witness :
    ((sendEvent (Conn.mk 1 true) "task_updated" Json.null).threw = false ∧
      (Conn.mk 1 true).failing = true ∧
      (sendEvent (Conn.mk 1 true) "task_updated" Json.null).errorLogged = true) ∧
    (broadcast [("7", Conn.mk 1 true)] "task_updated" Json.null "t").removed = [] :=
  ⟨⟨(c10_sendEvent_never_throws.1 (Conn.mk 1 true) "task_updated" Json.null).1, rfl,
      ((c10_sendEvent_never_throws.1 (Conn.mk 1 true) "task_updated" Json.null).2 rfl).1⟩,
    (c10_sendEvent_never_throws.2 [("7", Conn.mk 1 true)] "task_updated" Json.null "t").1⟩

/-- C1: the claim (with the spec) says a subscriber whose write fails during
broadcast is removed from the registry and not retried. The code contradicts
this: sendEvent swallows the write error, so the catch branch of broadcast
that would delete the client is unreachable. Concretely, after a broadcast to
a registry holding one subscriber whose writes throw, the subscriber is still
registered, nothing was removed, the error was logged inside sendEvent, and
the next broadcast writes to the same subscriber again. -/
theorem c1_failed_subscriber_not_removed :
    (broadcast [("100", Conn.mk 1 true)] "task_updated" Json.null "t1").registry
      = [("100", Conn.mk 1 true)] ∧
    (broadcast [("100", Conn.mk 1 true)] "task_updated" Json.null "t1").removed = [] ∧
    (broadcast [("100", Conn.mk 1 true)] "task_updated" Json.null "t1").log
      = [("100", SendResult.mk none true false)] ∧
    ((broadcast (broadcast [("100", Conn.mk 1 true)] "task_updated" Json.null "t1").registry
        "task_created" Json.null "t2").log.map Prod.fst) = ["100"] := by
  decide

/-- C9: unsubscribe is idempotent: removing an id a second time changes
nothing, removing a never-registered id leaves the registry identical, and
the registry size is unaffected beyond the first call. -/
theorem c9_unsubscribe_idempotent (reg : Registry) (cid : String) :
    unsubscribe (unsubscribe reg cid) cid = unsubscribe reg cid ∧
    (cid ∉ regKeys reg → unsubscribe reg cid = reg) ∧
    (unsubscribe (unsubscribe reg cid) cid).length = (unsubscribe reg cid).length := by
  refine ⟨mapDelete_idem reg cid, fun h => mapDelete_of_not_mem reg cid h, ?_⟩
  rw [show unsubscribe (unsubscribe reg cid) cid = unsubscribe reg cid from
    mapDelete_idem reg cid]

/-- C9 witness: double removal on a concrete registry, and removal of an
unknown id, instantiated and discharged. -/
theorem c9_unsubscribe_idempotent_witness :
    (unsubscribe (unsubscribe [("1", Conn.mk 1 false)] "1") "1"
      = unsubscribe [("1", Conn.mk 1 false)] "1") ∧
    unsubscribe [("1", Conn.mk 1 false)] "2" = [("1", Conn.mk 1 false)] :=
  ⟨(c9_unsubscribe_idempotent [("1", Conn.mk 1 false)] "1").1,
    (c9_unsubscribe_idempotent [("1", Conn.mk 1 false)] "2").2.1 (by decide)⟩

/-- C3 counterexample: the claim says identifiers of distinct subscribe
operations are always distinct and increasing. Two subscriptions of distinct
connections arriving at the same Date.now() millisecond (1000) receive the
same identifier, and the second registration replaces the first, leaving one
entry in the map. -/
theorem c3_same_millisecond_collision :
    (handleSseConnection [] (Conn.mk 1 false) 1000 "t1").clientId
      = (handleSseConnection (handleSseConnection [] (Conn.mk 1 false) 1000 "t1").registry
          (Conn.mk 2 false) 1000 "t2").clientId ∧
    (handleSseConnection (handleSseConnection [] (Conn.mk 1 false) 1000 "t1").registry
        (Conn.mk 2 false) 1000 "t2").registry.length = 1 ∧
    Conn.mk 1 false ≠ Conn.mk 2 false := by
  decide

/-- C3 amended: client identifiers are Date.now().toString(); whenever the
millisecond clock strictly increases between two subscribe operations, the
assigned identifiers are distinct and the later one decodes to the strictly
larger creation time; within one millisecond they collide. -/
theorem c3_ids_distinct_when_clock_increases (n1 n2 : Nat) (h : n1 < n2) :
    subscribeId n1 ≠ subscribeId n2 ∧
    decodeNatString (subscribeId n1) < decodeNatString (subscribeId n2) := by
  constructor
  · intro he
    exact absurd (natToString_inj he) (Nat.ne_of_lt h)
  · show decodeNatString (natToString n1) < decodeNatString (natToString n2)
    rw [decode_natToString, decode_natToString]
    exact h

/-- C3 witness: clocks 1000 and 1001. -/
theorem c3_ids_distinct_witness :
    (1000 : Nat) < 1001 ∧
    (subscribeId 1000 ≠ subscribeId 1001 ∧
      decodeNatString (subscribeId 1000) < decodeNatString (subscribeId 1001)) :=
  ⟨by decide, c3_ids_distinct_when_clock_increases 1000 1001 (by decide)⟩

/-- C5: a write failure on registered subscriber A does not prevent delivery
of the broadcast event to any other registered subscriber B whose connection
works, regardless of their relative positions in the registry, and broadcast
always returns normally to its caller. -/
theorem c5_failure_isolated_from_other_subscribers (reg : Registry)
    (hnd : (regKeys reg).Nodup) (cidA cidB : String) (connA connB : Conn)
    (hA : (cidA, connA) ∈ reg) (hB : (cidB, connB) ∈ reg)
    (hAfail : connA.failing = true) (hBok : connB.failing = false)
    (et : String) (d : Json) (now : String) :
    delivered cidB (broadcast reg et d now).log
      = [sseFrame et (sseEventJson et d now)] ∧
    (broadcast reg et d now).returnedNormally = true := by
  constructor
  · rw [broadcast_log_eq]
    exact delivered_of_mem et (sseEventJson et d now) reg cidB connB hnd hB hBok
  · exact broadcast_returns reg et d now

/-- C5 witness: a failing subscriber first in the registry does not stop
delivery to the healthy one after it. -/
theorem c5_failure_isolated_witness :
    ((regKeys [("1", Conn.mk 1 true), ("2", Conn.mk 2 false)]).Nodup ∧
      (Conn.mk 1 true).failing = true ∧ (Conn.mk 2 false).failing = false) ∧
    (delivered "2" (broadcast [("1", Conn.mk 1 true), ("2", Conn.mk 2 false)]
        "task_created" Json.null "t").log
      = [sseFrame "task_created" (sseEventJson "task_created" Json.null "t")] ∧
    (broadcast [("1", Conn.mk 1 true), ("2", Conn.mk 2 false)]
        "task_created" Json.null "t").returnedNormally = true) :=
  ⟨⟨by decide, rfl, rfl⟩,
    c5_failure_isolated_from_other_subscribers
      [("1", Conn.mk 1 true), ("2", Conn.mk 2 false)] (by decide) "1" "2"
      (Conn.mk 1 true) (Conn.mk 2 false) (by decide) (by decide) rfl rfl
      "task_created" Json.null "t"⟩

/-- C2: over a registry with distinct client ids, a subscriber present in the
registry with a working connection is delivered exactly one copy of each
broadcast event; over two successive broadcasts its stream holds the two
frames in broadcast order; an id not yet registered at broadcast time is
delivered nothing. -/
theorem c2_delivery_exactly_once_in_order (reg : Registry)
    (hnd : (regKeys reg).Nodup) (cid : String) (conn : Conn)
    (hmem : (cid, conn) ∈ reg) (hok : conn.failing = false)
    (cidAfter : String) (hafter : cidAfter ∉ regKeys reg)
    (e1 e2 : String) (d1 d2 : Json) (t1 t2 : String) :
    delivered cid (broadcast reg e1 d1 t1).log = [sseFrame e1 (sseEventJson e1 d1 t1)] ∧
    delivered cid (broadcast reg e1 d1 t1).log
        ++ delivered cid (broadcast (broadcast reg e1 d1 t1).registry e2 d2 t2).log
      = [sseFrame e1 (sseEventJson e1 d1 t1), sseFrame e2 (sseEventJson e2 d2 t2)] ∧
    delivered cidAfter (broadcast reg e1 d1 t1).log = [] := by
  have h1 : delivered cid (broadcast reg e1 d1 t1).log
      = [sseFrame e1 (sseEventJson e1 d1 t1)] := by
    rw [broadcast_log_eq]
    exact delivered_of_mem e1 (sseEventJson e1 d1 t1) reg cid conn hnd hmem hok
  have h2 : delivered cid (broadcast (broadcast reg e1 d1 t1).registry e2 d2 t2).log
      = [sseFrame e2 (sseEventJson e2 d2 t2)] := by
    rw [broadcast_registry_eq, broadcast_log_eq]
    exact delivered_of_mem e2 (sseEventJson e2 d2 t2) reg cid conn hnd hmem hok
  refine ⟨h1, ?_, ?_⟩
  · rw [h1, h2]
    rfl
  · rw [broadcast_log_eq]
    exact delivered_of_not_mem cidAfter e1 (sseEventJson e1 d1 t1) reg hafter

/-- C2 witness: two subscribers, two broadcasts, and an unregistered id. -/
theorem c2_delivery_witness :
    ((regKeys [("1", Conn.mk 1 false), ("2", Conn.mk 2 false)]).Nodup ∧
      ("3" : String) ∉ regKeys [("1", Conn.mk 1 false), ("2", Conn.mk 2 false)]) ∧
    (delivered "1" (broadcast [("1", Conn.mk 1 false), ("2", Conn.mk 2 false)]
        "task_created" Json.null "ta").log
      = [sseFrame "task_created" (sseEventJson "task_created" Json.null "ta")] ∧
    delivered "1" (broadcast [("1", Conn.mk 1 false), ("2", Conn.mk 2 false)]
          "task_created" Json.null "ta").log
        ++ delivered "1" (broadcast
            (broadcast [("1", Conn.mk 1 false), ("2", Conn.mk 2 false)]
              "task_created" Json.null "ta").registry "task_deleted" Json.null "tb").log
      = [sseFrame "task_created" (sseEventJson "task_created" Json.null "ta"),
          sseFrame "task_deleted" (sseEventJson "task_deleted" Json.null "tb")] ∧
    delivered "3" (broadcast [("1", Conn.mk 1 false), ("2", Conn.mk 2 false)]
        "task_created" Json.null "ta").log = []) :=
  ⟨⟨by decide, by decide⟩,
    c2_delivery_exactly_once_in_order
      [("1", Conn.mk 1 false), ("2", Conn.mk 2 false)] (by decide) "1"
      (Conn.mk 1 false) (by decide) rfl "3" (by decide)
      "task_created" "task_deleted" Json.null Json.null "ta" "tb"⟩

/-- C4 counterexample: the claim includes GET /events among the endpoints
that answer 401 without a bearer token, but handleSseConnection performs no
authorization check: a GET /events request with no Authorization header is
answered with status 200 (the stream is opened), not 401. -/
theorem c4_events_unauthenticated_gets_200 :
    statusOf (handleRequest (RequestEnv.mk "GET" "/events" none none
      (CreateBody.mk none none none) none (Except.error "x") (Except.error "x")
      (Except.error "x") 0)) = 200 ∧
    statusOf (handleRequest (RequestEnv.mk "GET" "/events" none none
      (CreateBody.mk none none none) none (Except.error "x") (Except.error "x")
      (Except.error "x") 0)) ≠ 401 ∧
    bearerToken none = "" := by
  decide

/-- C4 amended: the three /api/planner endpoints (GET and POST
/api/planner/tasks, and GET /api/planner/tasks/:id with a nonempty id
segment) answer 401 with body error Unauthorized - No access token provided
whenever the Authorization header carries no bearer token; GET /events is
served with no authorization check. -/
theorem c4_api_endpoints_401_without_bearer (auth : Option String)
    (h : bearerToken auth = "") (status : Option String) (userId : Option String)
    (graphTasks : Except String (List PTask × Bool))
    (graphTask : Except String (Option PTask)) (graphCreate : Except String Json)
    (body : CreateBody) (pathname : String) (hseg : lastSegment pathname ≠ "") :
    handleGetTasks auth status userId graphTasks = ApiResponse.resp 401 unauthorizedBody ∧
    (handleCreateTask auth body graphCreate).1 = ApiResponse.resp 401 unauthorizedBody ∧
    handleGetTaskDetails auth pathname userId graphTask
      = ApiResponse.resp 401 unauthorizedBody ∧
    unauthorizedBody = "\x7b\"error\":\"Unauthorized - No access token provided\"\x7d" := by
  refine ⟨?_, ?_, ?_, rfl⟩
  · unfold handleGetTasks
    rw [if_pos h]
  · unfold handleCreateTask
    rw [if_pos h]
  · unfold handleGetTaskDetails
    simp [hseg, h]

/-- C4 witness: no Authorization header at all, task path with id abc. -/
theorem c4_api_endpoints_401_witness :
    (bearerToken none = "" ∧ lastSegment "/api/planner/tasks/abc" ≠ "") ∧
    (handleGetTasks none none none (Except.error "x")
        = ApiResponse.resp 401 unauthorizedBody ∧
      (handleCreateTask none (CreateBody.mk none none none) (Except.error "x")).1
        = ApiResponse.resp 401 unauthorizedBody ∧
      handleGetTaskDetails none "/api/planner/tasks/abc" none (Except.error "x")
        = ApiResponse.resp 401 unauthorizedBody ∧
      unauthorizedBody = "\x7b\"error\":\"Unauthorized - No access token provided\"\x7d") :=
  ⟨⟨rfl, by decide⟩,
    c4_api_endpoints_401_without_bearer none rfl none none (Except.error "x")
      (Except.error "x") (Except.error "x") (CreateBody.mk none none none)
      "/api/planner/tasks/abc" (by decide)⟩

/-- C6: for a working connection and a newline-free event name, sendEvent
writes exactly one frame: the line event: name, then the line data: JSON,
then a blank line, the frame ending in two consecutive newlines; the JSON
rendering of the payload is a single line. -/
theorem c6_frame_format (conn : Conn) (name : String) (d : Json)
    (hok : conn.failing = false) (hname : nlFree name) :
    (sendEvent conn name d).written = some (sseFrame name d) ∧
    (sseFrame name d).data
      = ("event: " ++ name).data ++ '\n' :: (("data: " ++ stringify d).data ++ ['\n', '\n']) ∧
    nlFree ("event: " ++ name) ∧
    nlFree ("data: " ++ stringify d) := by
  refine ⟨sendEvent_written_ok conn name d hok, ?_,
    nlFree_append (by decide) hname, nlFree_append (by decide) (stringify_nlFree d)⟩
  show ("event: " ++ name ++ "\n" ++ "data: " ++ stringify d ++ "\n\n").data = _
  simp only [String.data_append]
  simp

/-- C6 witness: the connected frame of a healthy connection. -/
theorem c6_frame_format_witness :
    ((Conn.mk 0 false).failing = false ∧ nlFree "task_created") ∧
    ((sendEvent (Conn.mk 0 false) "task_created" Json.null).written
        = some (sseFrame "task_created" Json.null) ∧
      (sseFrame "task_created" Json.null).data
        = ("event: " ++ "task_created").data
          ++ '\n' :: (("data: " ++ stringify Json.null).data ++ ['\n', '\n']) ∧
      nlFree ("event: " ++ "task_created") ∧
      nlFree ("data: " ++ stringify Json.null)) :=
  ⟨⟨rfl, by decide⟩,
    c6_frame_format (Conn.mk 0 false) "task_created" Json.null rfl (by decide)⟩

/-- C7: with a status query, every task in the list produced by
fetchPlannerTasks satisfies the status predicate: completed tasks have
percentComplete 100, notStarted tasks have 0, inProgress tasks are strictly
between 0 and 100, whatever page Graph returned. -/
theorem c7_status_filtering (uid : String) (value : List PTask) (hasMore : Bool)
    (t : PTask) :
    (∀ r, fetchPlannerTasks (some "completed") (some uid) (Except.ok (value, hasMore))
        = Except.ok r → t ∈ r.tasks → t.percentComplete = some 100) ∧
    (∀ r, fetchPlannerTasks (some "notStarted") (some uid) (Except.ok (value, hasMore))
        = Except.ok r → t ∈ r.tasks → t.percentComplete = some 0) ∧
    (∀ r, fetchPlannerTasks (some "inProgress") (some uid) (Except.ok (value, hasMore))
        = Except.ok r → t ∈ r.tasks →
        ∃ p : Int, t.percentComplete = some p ∧ 0 < p ∧ p < 100) := by
  refine ⟨?_, ?_, ?_⟩
  all_goals intro r hr hmem
  · simp only [fetchPlannerTasks] at hr
    injection hr with hr2
    subst hr2
    simp only at hmem
    rcases List.mem_filter.mp hmem with ⟨_, hkeep⟩
    simp [statusKeep] at hkeep
    exact hkeep
  · simp only [fetchPlannerTasks] at hr
    injection hr with hr2
    subst hr2
    simp only at hmem
    rcases List.mem_filter.mp hmem with ⟨_, hkeep⟩
    simp [statusKeep] at hkeep
    exact hkeep
  · simp only [fetchPlannerTasks] at hr
    injection hr with hr2
    subst hr2
    simp only at hmem
    rcases List.mem_filter.mp hmem with ⟨_, hkeep⟩
    simp [statusKeep] at hkeep
    rcases hkeep with ⟨hgt, hlt⟩
    cases hpc : t.percentComplete with
    | none => rw [hpc] at hgt; simp [jsNumGt] at hgt
    | some p =>
      rw [hpc] at hgt hlt
      simp [jsNumGt] at hgt
      simp [jsNumLt] at hlt
      exact ⟨p, rfl, hgt, hlt⟩

/-- C7 witness: one completed task assigned to the user survives the
completed filter with percentComplete 100. -/
theorem c7_status_filtering_witness :
    (fetchPlannerTasks (some "completed") (some "u")
        (Except.ok ([PTask.mk (some 100) (some ["user_u"])], false))
      = Except.ok (FetchOk.mk [PTask.mk (some 100) (some ["user_u"])] 1 false) ∧
      PTask.mk (some 100) (some ["user_u"])
        ∈ (FetchOk.mk [PTask.mk (some 100) (some ["user_u"])] 1 false).tasks) ∧
    (PTask.mk (some 100) (some ["user_u"])).percentComplete = some 100 :=
  ⟨⟨rfl, by decide⟩,
    (c7_status_filtering "u" [PTask.mk (some 100) (some ["user_u"])] false
        (PTask.mk (some 100) (some ["user_u"]))).1
      (FetchOk.mk [PTask.mk (some 100) (some ["user_u"])] 1 false) rfl (by decide)⟩

/-- C8: a POST /api/planner/tasks request carrying a bearer token whose
parsed body lacks title, planId or bucketId is answered 400 with the
missing-fields body, whose text contains the required list, and the Graph
task-creation call is not reached. -/
theorem c8_create_task_validation (auth : Option String) (body : CreateBody)
    (graphCreate : Except String Json) (htok : bearerToken auth ≠ "")
    (hmiss : body.title = none ∨ body.planId = none ∨ body.bucketId = none) :
    (handleCreateTask auth body graphCreate).1 = ApiResponse.resp 400 missingFieldsBody ∧
    (handleCreateTask auth body graphCreate).2 = false ∧
    missingFieldsBody
      = "\x7b\"error\":\"Missing required fields\",\"required\":[\"title\",\"planId\",\"bucketId\"]\x7d" ∧
    List.IsInfix ("\"required\":[\"title\",\"planId\",\"bucketId\"]").data
      missingFieldsBody.data := by
  have hfal : (jsFalsyStr body.title || jsFalsyStr body.planId || jsFalsyStr body.bucketId)
      = true := by
    rcases hmiss with hm | hm | hm <;> simp [jsFalsyStr, hm]
  refine ⟨?_, ?_, rfl, by decide⟩
  · unfold handleCreateTask
    rw [if_neg htok, if_pos hfal]
  · unfold handleCreateTask
    rw [if_neg htok, if_pos hfal]

/-- C8 witness: a bearer token and the empty body. -/
theorem c8_create_task_validation_witness :
    (bearerToken (some "Bearer tok") ≠ "" ∧ (CreateBody.mk none none none).title = none) ∧
    ((handleCreateTask (some "Bearer tok") (CreateBody.mk none none none)
          (Except.error "x")).1 = ApiResponse.resp 400 missingFieldsBody ∧
      (handleCreateTask (some "Bearer tok") (CreateBody.mk none none none)
          (Except.error "x")).2 = false ∧
      missingFieldsBody
        = "\x7b\"error\":\"Missing required fields\",\"required\":[\"title\",\"planId\",\"bucketId\"]\x7d" ∧
      List.IsInfix ("\"required\":[\"title\",\"planId\",\"bucketId\"]").data
        missingFieldsBody.data) :=
  ⟨⟨by decide, rfl⟩,
    c8_create_task_validation (some "Bearer tok") (CreateBody.mk none none none)
      (Except.error "x") (by decide) (Or.inl rfl)⟩
